import Mathlib

/-
Verification of the MFA authenticator component of piccolo_api: TOTP secrets,
one-time recovery codes, replay detection and revocation.  The component
piccolo_api/mfa/authenticator/tables.py is absent from the source snapshot
(only its test suite tests/mfa/authenticator/test_tables.py is present), so
the data model and the operations below are modelled from the specification
text, faithful to its words, and the claims are settled against that model.
-/

namespace Mfa

/-- Modelled from the spec: the base-32 alphabet from which TOTP seeds are
drawn (piccolo_api/mfa/authenticator/tables.py is missing from the snapshot). -/
def base32Alphabet : List Char := "ABCDEFGHIJKLMNOPQRSTUVWXYZ234567".data

/-- Modelled from the spec: generate_secret produces a 32 character secret
drawn from a base-32 alphabet using a cryptographically secure random source.
The random source is externalized: the 32 random draws are an explicit
argument, so the function is the deterministic encoding of the draws. -/
def generate_secret (draws : Fin 32 → Fin 32) : String :=
  String.mk (List.ofFn (fun i : Fin 32 => base32Alphabet.get (Fin.cast (by decide) (draws i))))

/-- Decimal digit character for n mod 10. -/
def digitChar (n : Nat) : Char := "0123456789".data.getD (n % 10) 'X'

/-- Zero padded 6 digit decimal rendering of n mod 1000000. -/
def padSix (n : Nat) : String :=
  String.mk [digitChar (n / 100000), digitChar (n / 10000), digitChar (n / 1000),
    digitChar (n / 100), digitChar (n / 10), digitChar n]

/-- Deterministic numeric value of a seed string, used by the modelled TOTP core. -/
def seedValue (s : String) : Nat :=
  s.data.foldl (fun a c => a * 1114112 + c.toNat) 1

/-- Modelled from the spec: compute_code is a deterministic function of the
seed and a 30 second time step; the HMAC core of the standard derivation is
abstracted by a deterministic mixing function producing a 6 digit code. -/
def compute_code_at_step (seed : String) (step : Nat) : String :=
  padSix ((seedValue seed * 2654435761 + step * 2246822519) % 1000000)

/-- The 30 second time step of a timestamp, in seconds. -/
def totpStep (now : Nat) : Nat := now / 30

/-- Modelled from the spec: compute_code(seed, time), the code at the current step. -/
def compute_code (seed : String) (now : Nat) : String :=
  compute_code_at_step seed (totpStep now)

/-- Modelled from the spec: verify_code accepts codes computed at the current
step or one step before or after, to tolerate clock skew. -/
def verify_code (seed : String) (code : String) (now : Nat) : Bool :=
  decide (code = compute_code_at_step seed (totpStep now)) ||
  decide (code = compute_code_at_step seed (totpStep now - 1)) ||
  decide (code = compute_code_at_step seed (totpStep now + 1))

/-- Modelled from the spec: recovery codes are persisted as one way hashes;
the hash is modelled as a deterministic fold over the characters. -/
def hashCode (s : String) : Nat :=
  s.data.foldl (fun a c => a * 1114112 + c.toNat + 1) 7

/-- Modelled from the spec: symmetric authenticated encryption of the TOTP
seed at rest; decrypt fails closed, returning none on an integrity failure. -/
structure EncryptionProvider where
  encrypt : String → List Nat
  decrypt : List Nat → Option String

/-- Modelled from the spec: the persisted AuthenticatorSecret record, one
active record per account; recovery_codes stores the one way hashes. -/
structure AuthenticatorSecret where
  account_id : Nat
  encrypted_secret : List Nat
  recovery_codes : List Nat
  created_at : Nat
  last_used_at : Option Nat
  last_used_code : Option String
  revoked_at : Option Nat
deriving DecidableEq

/-- The persistence collaborator: the list of stored records. -/
abbrev Store : Type := List AuthenticatorSecret

/-- A record is the active record for an account when it belongs to the
account and has not been revoked. -/
def isActiveFor (aid : Nat) (r : AuthenticatorSecret) : Bool :=
  r.account_id == aid && r.revoked_at.isNone

/-- Modelled from the spec: get_active returns the non revoked record, or
nothing if unenrolled or revoked. -/
def get_active (store : Store) (aid : Nat) : Option AuthenticatorSecret :=
  List.find? (isActiveFor aid) store

/-- Read-modify-write of the active record of one account; other records are
untouched. -/
def updateActive (store : Store) (aid : Nat) (f : AuthenticatorSecret → AuthenticatorSecret) : Store :=
  List.map (fun r => if isActiveFor aid r then f r else r) store

/-- Modelled from the spec: consume_recovery_code atomically checks whether
the hash of the candidate matches an unconsumed recovery code; if so removes
it and returns true; otherwise returns false without mutation. -/
def consume_recovery_code (store : Store) (aid : Nat) (candidate : String) : Bool × Store :=
  match get_active store aid with
  | none => (false, store)
  | some r =>
    if hashCode candidate ∈ r.recovery_codes then
      (true, updateActive store aid
        (fun x => { x with recovery_codes := x.recovery_codes.erase (hashCode candidate) }))
    else (false, store)

/-- Modelled from the spec: record_successful_totp_use atomically updates
last_used_at and last_used_code. -/
def record_successful_totp_use (store : Store) (aid : Nat) (code : String) (now : Nat) : Store :=
  updateActive store aid (fun r => { r with last_used_at := some now, last_used_code := some code })

/-- Modelled from the spec: revoke sets revoked_at on the active record if one
exists; revoking an already revoked or nonexistent record is a no-op. -/
def revoke (store : Store) (aid : Nat) (now : Nat) : Store :=
  updateActive store aid (fun r => { r with revoked_at := some now })

/-- Observable log events emitted by the coordinator. -/
inductive LogEvent where
  | replayWarning (message : String)
  | decryptionFailure (account_id : Nat)
deriving DecidableEq

/-- Modelled from the spec: the exact replay-detection warning text, an
observable contract. -/
def replayMessage (aid : Nat) : String :=
  "User " ++ toString aid ++ " reused a token - potential replay attack."

/-- Result of one authenticate call: the boolean outcome, the store after the
call, and the log events emitted during the call. -/
structure AuthResult where
  ok : Bool
  store : Store
  logs : List LogEvent
deriving DecidableEq

/-- Modelled from the spec: the verification state machine of authenticate.
1. Absent or revoked record: false, no further checks, no mutation.
2. A successful consume_recovery_code: true immediately.
3. Decrypt the seed and run verify_code; a decryption failure or an invalid
   code: false.
4. Valid but equal to last_used_code: warning log and false.
5. Otherwise record_successful_totp_use, then true. -/
def authenticate (store : Store) (aid : Nat) (code : String)
    (provider : EncryptionProvider) (now : Nat) : AuthResult :=
  match get_active store aid with
  | none => ⟨false, store, []⟩
  | some r =>
    let c := consume_recovery_code store aid code
    if c.1 then ⟨true, c.2, []⟩
    else
      match provider.decrypt r.encrypted_secret with
      | none => ⟨false, store, [LogEvent.decryptionFailure aid]⟩
      | some seed =>
        if verify_code seed code now then
          if r.last_used_code = some code then
            ⟨false, store, [LogEvent.replayWarning (replayMessage aid)]⟩
          else
            ⟨true, record_successful_totp_use store aid code now, []⟩
        else ⟨false, store, []⟩

/-- Enrollment failure: an active record already exists. -/
inductive EnrollError where
  | alreadyEnrolled
deriving DecidableEq

/-- Modelled from the spec: create_new (enroll) fails when a non revoked
record exists; otherwise it encrypts the fresh seed, hashes the recovery
codes, persists the record and returns it together with the one time
plaintext recovery codes.  Randomness is externalized: the fresh seed and the
plaintext recovery codes are explicit arguments. -/
def create_new (store : Store) (aid : Nat) (provider : EncryptionProvider)
    (seed : String) (recovery_plaintext : List String) (now : Nat) :
    Except EnrollError (AuthenticatorSecret × List String × Store) :=
  match get_active store aid with
  | some _ => Except.error EnrollError.alreadyEnrolled
  | none =>
    let record : AuthenticatorSecret :=
      { account_id := aid
        encrypted_secret := provider.encrypt seed
        recovery_codes := recovery_plaintext.map hashCode
        created_at := now
        last_used_at := none
        last_used_code := none
        revoked_at := none }
    Except.ok (record, recovery_plaintext, record :: store)

/-- A concrete encryption provider for evaluating the model on closed inputs:
the ciphertext is the list of character codes. -/
def demoProvider : EncryptionProvider where
  encrypt := fun s => s.data.map Char.toNat
  decrypt := fun l => some (String.mk (l.map Char.ofNat))

/-- Concrete seed for closed evaluations. -/
def demoSeed : String := "A"

/-- The valid TOTP code of the demo seed at time 0. -/
def demoCode : String := compute_code demoSeed 0

/-- A concrete enrolled, non revoked record for account 1, no recovery codes. -/
def demoRecord : AuthenticatorSecret where
  account_id := 1
  encrypted_secret := demoProvider.encrypt demoSeed
  recovery_codes := []
  created_at := 0
  last_used_at := none
  last_used_code := none
  revoked_at := none

/-- A concrete store holding only the demo record. -/
def demoStore : Store := [demoRecord]

/-- A concrete recovery code for closed evaluations. -/
def demoRecoveryCode : String := "RECOVERYCODE"

/-- A concrete enrolled record for account 2 holding one recovery code hash. -/
def demoRecRecord : AuthenticatorSecret where
  account_id := 2
  encrypted_secret := demoProvider.encrypt demoSeed
  recovery_codes := [hashCode demoRecoveryCode]
  created_at := 0
  last_used_at := none
  last_used_code := none
  revoked_at := none

/-- A concrete store holding only the recovery demo record. -/
def demoRecStore : Store := [demoRecRecord]

/-- An enrolled, non revoked record for account 1 whose last_used_code already
equals the currently valid TOTP code. -/
def cexRecord : AuthenticatorSecret :=
  { demoRecord with last_used_code := some demoCode }

/-- A concrete store holding only the counterexample record. -/
def cexStore : Store := [cexRecord]

/-- A concrete revoked record for account 3. -/
def demoRevokedRecord : AuthenticatorSecret :=
  { demoRecord with account_id := 3, revoked_at := some 10 }

/-- A concrete store holding only the revoked record. -/
def demoRevokedStore : Store := [demoRevokedRecord]

/-- The record produced by a fresh enrollment of account 1 with the demo
seed and one recovery code. -/
def demoFreshRecord : AuthenticatorSecret where
  account_id := 1
  encrypted_secret := demoProvider.encrypt demoSeed
  recovery_codes := [hashCode demoRecoveryCode]
  created_at := 0
  last_used_at := none
  last_used_code := none
  revoked_at := none

/-- A revoked record is never the active record of any account. -/
theorem isActiveFor_of_revoked (aid : Nat) (r : AuthenticatorSecret)
    (h : r.revoked_at.isSome = true) : isActiveFor aid r = false := by
  rcases Option.isSome_iff_exists.mp h with ⟨t, ht⟩
  simp [isActiveFor, ht]

/-- When the update function preserves activity, the active record after an
update is the image of the active record before it. -/
theorem get_active_updateActive (s : Store) (aid : Nat)
    (f : AuthenticatorSecret → AuthenticatorSecret)
    (hf : ∀ x, isActiveFor aid (f x) = isActiveFor aid x) :
    get_active (updateActive s aid f) aid = (get_active s aid).map f := by
  induction s with
  | nil => rfl
  | cons head tail ih =>
    simp only [updateActive, get_active, List.map_cons] at *
    by_cases h : isActiveFor aid head = true
    · rw [if_pos h, List.find?_cons_of_pos _ ((hf head).trans h),
        List.find?_cons_of_pos _ h, Option.map_some']
    · rw [if_neg h, List.find?_cons_of_neg _ h, List.find?_cons_of_neg _ h, ih]

/-- When the update function deactivates every record it touches, no record
for the account stays active. -/
theorem get_active_updateActive_kill (s : Store) (aid : Nat)
    (f : AuthenticatorSecret → AuthenticatorSecret)
    (hf : ∀ x, isActiveFor aid (f x) = false) :
    get_active (updateActive s aid f) aid = none := by
  rw [get_active, List.find?_eq_none]
  intro x hx
  rcases List.mem_map.mp hx with ⟨y, _, rfl⟩
  by_cases h : isActiveFor aid y = true
  · simp [if_pos h, hf]
  · simp [if_neg h, h]

/-- Updating the active record of an account with no active record is a no-op. -/
theorem updateActive_eq_self (s : Store) (aid : Nat)
    (f : AuthenticatorSecret → AuthenticatorSecret)
    (h : ∀ x ∈ s, isActiveFor aid x = false) :
    updateActive s aid f = s := by
  induction s with
  | nil => rfl
  | cons head tail ih =>
    simp only [updateActive, List.map_cons] at *
    rw [if_neg (by simp [h head (List.mem_cons_self head tail)]),
      ih (fun x hx => h x (List.mem_cons_of_mem _ hx))]

/-- Records that are not active for the account pass through an update
unchanged. -/
theorem mem_updateActive_of_inactive {s : Store} {aid : Nat}
    {x : AuthenticatorSecret} (f : AuthenticatorSecret → AuthenticatorSecret)
    (hx : x ∈ s) (h : isActiveFor aid x = false) : x ∈ updateActive s aid f := by
  have hm := List.mem_map_of_mem (fun r => if isActiveFor aid r then f r else r) hx
  simpa [updateActive, h] using hm

/-- The image of an active record is in the updated store. -/
theorem mem_updateActive_of_active {s : Store} {aid : Nat}
    {x : AuthenticatorSecret} (f : AuthenticatorSecret → AuthenticatorSecret)
    (hx : x ∈ s) (h : isActiveFor aid x = true) : f x ∈ updateActive s aid f := by
  have hm := List.mem_map_of_mem (fun r => if isActiveFor aid r then f r else r) hx
  simpa [updateActive, h] using hm

/-- After a deactivating update, every record in the store is inactive for the
account. -/
theorem inactive_of_mem_updateActive_kill {s : Store} {aid : Nat}
    (f : AuthenticatorSecret → AuthenticatorSecret)
    (hf : ∀ x, isActiveFor aid (f x) = false) :
    ∀ y ∈ updateActive s aid f, isActiveFor aid y = false := by
  intro y hy
  rcases List.mem_map.mp hy with ⟨x, _, rfl⟩
  by_cases h : isActiveFor aid x = true
  · rw [if_pos h]; exact hf x
  · rw [if_neg h]; simpa using h

/-- Fields that the update function preserves are preserved across the whole
store. -/
theorem map_updateActive_eq {α : Type} (g : AuthenticatorSecret → α)
    (s : Store) (aid : Nat) (f : AuthenticatorSecret → AuthenticatorSecret)
    (hf : ∀ x, g (f x) = g x) :
    (updateActive s aid f).map g = s.map g := by
  simp only [updateActive, List.map_map]
  apply List.map_congr_left
  intro a _
  by_cases h : isActiveFor aid a = true
  · simp [if_pos h, hf]
  · simp [if_neg h]

/-- With no active record, consume_recovery_code fails and does not mutate. -/
theorem consume_of_no_active {s : Store} {aid : Nat} (candidate : String)
    (h : get_active s aid = none) :
    consume_recovery_code s aid candidate = (false, s) := by
  unfold consume_recovery_code
  rw [h]

/-- A candidate whose hash matches no stored recovery code is rejected without
mutation. -/
theorem consume_of_not_mem {s : Store} {aid : Nat} {candidate : String}
    {r : AuthenticatorSecret} (hget : get_active s aid = some r)
    (h : hashCode candidate ∉ r.recovery_codes) :
    consume_recovery_code s aid candidate = (false, s) := by
  simp only [consume_recovery_code, hget]
  rw [if_neg h]

/-- A candidate whose hash matches a stored recovery code is accepted and the
matching hash entry is removed from the active record. -/
theorem consume_of_mem {s : Store} {aid : Nat} {candidate : String}
    {r : AuthenticatorSecret} (hget : get_active s aid = some r)
    (h : hashCode candidate ∈ r.recovery_codes) :
    consume_recovery_code s aid candidate =
      (true, updateActive s aid
        (fun x => { x with recovery_codes := x.recovery_codes.erase (hashCode candidate) })) := by
  simp only [consume_recovery_code, hget]
  rw [if_pos h]

/-- Branch 1 of authenticate: absent or revoked record. -/
theorem authenticate_no_active {s : Store} {aid : Nat} (code : String)
    (p : EncryptionProvider) (now : Nat) (h : get_active s aid = none) :
    authenticate s aid code p now = ⟨false, s, []⟩ := by
  unfold authenticate
  rw [h]

/-- Branch 2 of authenticate: a successful recovery code consumption. -/
theorem authenticate_recovery {s : Store} {aid : Nat} {code : String}
    (p : EncryptionProvider) (now : Nat) {r : AuthenticatorSecret}
    (hget : get_active s aid = some r) (hmem : hashCode code ∈ r.recovery_codes) :
    authenticate s aid code p now =
      ⟨true, updateActive s aid
        (fun x => { x with recovery_codes := x.recovery_codes.erase (hashCode code) }), []⟩ := by
  simp only [authenticate, hget, consume_of_mem hget hmem]
  rfl

/-- Branch 3a of authenticate: the stored ciphertext fails to decrypt. -/
theorem authenticate_decrypt_failure {s : Store} {aid : Nat} {code : String}
    {p : EncryptionProvider} (now : Nat) {r : AuthenticatorSecret}
    (hget : get_active s aid = some r) (hmem : hashCode code ∉ r.recovery_codes)
    (hd : p.decrypt r.encrypted_secret = none) :
    authenticate s aid code p now = ⟨false, s, [LogEvent.decryptionFailure aid]⟩ := by
  simp only [authenticate, hget, consume_of_not_mem hget hmem, hd]
  rfl

/-- Branch 3b of authenticate: the presented code fails TOTP verification. -/
theorem authenticate_invalid {s : Store} {aid : Nat} {code : String}
    {p : EncryptionProvider} {now : Nat} {r : AuthenticatorSecret} {seed : String}
    (hget : get_active s aid = some r) (hmem : hashCode code ∉ r.recovery_codes)
    (hd : p.decrypt r.encrypted_secret = some seed)
    (hv : verify_code seed code now = false) :
    authenticate s aid code p now = ⟨false, s, []⟩ := by
  simp only [authenticate, hget, consume_of_not_mem hget hmem, hd, hv]
  rfl

/-- Branch 4 of authenticate: a valid code equal to last_used_code is a
replay; it is rejected with the warning event. -/
theorem authenticate_replay {s : Store} {aid : Nat} {code : String}
    {p : EncryptionProvider} {now : Nat} {r : AuthenticatorSecret} {seed : String}
    (hget : get_active s aid = some r) (hmem : hashCode code ∉ r.recovery_codes)
    (hd : p.decrypt r.encrypted_secret = some seed)
    (hv : verify_code seed code now = true) (hl : r.last_used_code = some code) :
    authenticate s aid code p now =
      ⟨false, s, [LogEvent.replayWarning (replayMessage aid)]⟩ := by
  simp only [authenticate, hget, consume_of_not_mem hget hmem, hd, hv, hl]
  rfl

/-- Branch 5 of authenticate: a valid fresh code succeeds and records the use. -/
theorem authenticate_totp_success {s : Store} {aid : Nat} {code : String}
    {p : EncryptionProvider} {now : Nat} {r : AuthenticatorSecret} {seed : String}
    (hget : get_active s aid = some r) (hmem : hashCode code ∉ r.recovery_codes)
    (hd : p.decrypt r.encrypted_secret = some seed)
    (hv : verify_code seed code now = true) (hl : r.last_used_code ≠ some code) :
    authenticate s aid code p now =
      ⟨true, record_successful_totp_use s aid code now, []⟩ := by
  simp only [authenticate, hget, consume_of_not_mem hget hmem, hd, hv, hl]
  rfl

/-- Every failing authenticate call leaves the store unchanged. -/
theorem authenticate_fail_frame (s : Store) (aid : Nat) (code : String)
    (p : EncryptionProvider) (now : Nat)
    (h : (authenticate s aid code p now).ok = false) :
    (authenticate s aid code p now).store = s := by
  cases hget : get_active s aid with
  | none => rw [authenticate_no_active code p now hget]
  | some r =>
    by_cases hmem : hashCode code ∈ r.recovery_codes
    · rw [authenticate_recovery p now hget hmem] at h
      simp at h
    · cases hd : p.decrypt r.encrypted_secret with
      | none => rw [authenticate_decrypt_failure now hget hmem hd]
      | some seed =>
        cases hv : verify_code seed code now with
        | false => rw [authenticate_invalid hget hmem hd hv]
        | true =>
          by_cases hl : r.last_used_code = some code
          · rw [authenticate_replay hget hmem hd hv hl]
          · rw [authenticate_totp_success hget hmem hd hv hl] at h
            simp at h

/-- The replay warning event is emitted only in the replay branch: the record
is active, the code is not a recovery code, the seed decrypts, the code passes
TOTP verification and equals last_used_code; the call fails and the message is
the exact contract string. -/
theorem replay_log_inv (s : Store) (aid : Nat) (code : String)
    (p : EncryptionProvider) (now : Nat) (m : String)
    (h : LogEvent.replayWarning m ∈ (authenticate s aid code p now).logs) :
    m = replayMessage aid ∧ (authenticate s aid code p now).ok = false ∧
    ∃ r seed, get_active s aid = some r ∧ hashCode code ∉ r.recovery_codes ∧
      p.decrypt r.encrypted_secret = some seed ∧ verify_code seed code now = true ∧
      r.last_used_code = some code := by
  cases hget : get_active s aid with
  | none =>
    rw [authenticate_no_active code p now hget] at h
    simp at h
  | some r =>
    by_cases hmem : hashCode code ∈ r.recovery_codes
    · rw [authenticate_recovery p now hget hmem] at h
      simp at h
    · cases hd : p.decrypt r.encrypted_secret with
      | none =>
        rw [authenticate_decrypt_failure now hget hmem hd] at h
        simp at h
      | some seed =>
        cases hv : verify_code seed code now with
        | false =>
          rw [authenticate_invalid hget hmem hd hv] at h
          simp at h
        | true =>
          by_cases hl : r.last_used_code = some code
          · rw [authenticate_replay hget hmem hd hv hl] at h
            simp at h
            rw [authenticate_replay hget hmem hd hv hl]
            exact ⟨h, rfl, r, seed, rfl, hmem, hd, hv, hl⟩
          · rw [authenticate_totp_success hget hmem hd hv hl] at h
            simp at h

/-- A revoked record survives any authenticate call unchanged. -/
theorem mem_authenticate_store_of_revoked {s : Store} {aid : Nat}
    {code : String} {p : EncryptionProvider} {now : Nat} {x : AuthenticatorSecret}
    (hx : x ∈ s) (hrev : x.revoked_at.isSome = true) :
    x ∈ (authenticate s aid code p now).store := by
  have hinact : isActiveFor aid x = false := isActiveFor_of_revoked aid x hrev
  cases hget : get_active s aid with
  | none => rw [authenticate_no_active code p now hget]; exact hx
  | some r =>
    by_cases hmem : hashCode code ∈ r.recovery_codes
    · rw [authenticate_recovery p now hget hmem]
      exact mem_updateActive_of_inactive _ hx hinact
    · cases hd : p.decrypt r.encrypted_secret with
      | none => rw [authenticate_decrypt_failure now hget hmem hd]; exact hx
      | some seed =>
        cases hv : verify_code seed code now with
        | false => rw [authenticate_invalid hget hmem hd hv]; exact hx
        | true =>
          by_cases hl : r.last_used_code = some code
          · rw [authenticate_replay hget hmem hd hv hl]; exact hx
          · rw [authenticate_totp_success hget hmem hd hv hl]
            exact mem_updateActive_of_inactive _ hx hinact

/-- When every record of the account is revoked, there is no active record. -/
theorem get_active_eq_none_of_all_revoked (s : Store) (aid : Nat)
    (h : ∀ r ∈ s, r.account_id = aid → r.revoked_at.isSome = true) :
    get_active s aid = none := by
  rw [get_active, List.find?_eq_none]
  intro x hx hactive
  simp only [isActiveFor, Bool.and_eq_true, beq_iff_eq] at hactive
  rcases hactive with ⟨heq, hnone⟩
  have := h x hx heq
  rw [Option.isNone_iff_eq_none] at hnone
  rw [hnone] at this
  simp at this

/-- C1: for an enrolled, non revoked account, after authenticate succeeds for
a TOTP code (one whose hash matches no stored recovery code, so the success is
via TOTP verification), immediately calling authenticate again with the
identical code returns false and emits exactly one warning event whose
message is "User {account_id} reused a token - potential replay attack." with
the account id substituted, so no TOTP code ever authenticates twice. -/
theorem totp_replay_rejected_second_time (s : Store) (aid : Nat) (code : String)
    (p : EncryptionProvider) (now : Nat) (r : AuthenticatorSecret)
    (hget : get_active s aid = some r)
    (hrec : hashCode code ∉ r.recovery_codes)
    (hok : (authenticate s aid code p now).ok = true) :
    (authenticate (authenticate s aid code p now).store aid code p now).ok = false ∧
    (authenticate (authenticate s aid code p now).store aid code p now).logs =
      [LogEvent.replayWarning
        ("User " ++ toString aid ++ " reused a token - potential replay attack.")] := by
  cases hd : p.decrypt r.encrypted_secret with
  | none =>
    rw [authenticate_decrypt_failure now hget hrec hd] at hok
    simp at hok
  | some seed =>
    cases hv : verify_code seed code now with
    | false =>
      rw [authenticate_invalid hget hrec hd hv] at hok
      simp at hok
    | true =>
      by_cases hl : r.last_used_code = some code
      · rw [authenticate_replay hget hrec hd hv hl] at hok
        simp at hok
      · rw [authenticate_totp_success hget hrec hd hv hl]
        have hget2 : get_active (record_successful_totp_use s aid code now) aid =
            some { r with last_used_at := some now, last_used_code := some code } := by
          unfold record_successful_totp_use
          rw [get_active_updateActive s aid
            (fun x => { x with last_used_at := some now, last_used_code := some code })
            (fun x => rfl), hget]
          rfl
        rw [show (AuthResult.mk true (record_successful_totp_use s aid code now) []).store =
          record_successful_totp_use s aid code now from rfl]
        rw [authenticate_replay hget2 hrec hd hv rfl]
        exact ⟨rfl, rfl⟩

/-- Witness for C1 at account 1, the demo store and the valid TOTP code of
the demo seed at time 0. -/
theorem totp_replay_rejected_second_time_witness :
    (authenticate (authenticate demoStore 1 demoCode demoProvider 0).store 1 demoCode demoProvider 0).ok = false ∧
    (authenticate (authenticate demoStore 1 demoCode demoProvider 0).store 1 demoCode demoProvider 0).logs =
      [LogEvent.replayWarning
        ("User " ++ toString 1 ++ " reused a token - potential replay attack.")] :=
  totp_replay_rejected_second_time demoStore 1 demoCode demoProvider 0 demoRecord
    (by decide) (by decide) (by decide)

/-- C2: the replay branch is reached only by codes that pass TOTP
verification: an active account presenting a code that matches no recovery
code and fails verification gets false with no log event, and any emitted
replay warning implies the code passed verification, equals the stored
last_used_code, carries the exact contract message, and the call failed. -/
theorem replay_branch_requires_valid_code (s : Store) (aid : Nat) (code : String)
    (p : EncryptionProvider) (now : Nat) :
    (∀ r seed, get_active s aid = some r → hashCode code ∉ r.recovery_codes →
      p.decrypt r.encrypted_secret = some seed → verify_code seed code now = false →
      authenticate s aid code p now = ⟨false, s, []⟩) ∧
    (∀ m, LogEvent.replayWarning m ∈ (authenticate s aid code p now).logs →
      m = replayMessage aid ∧ (authenticate s aid code p now).ok = false ∧
      ∃ r seed, get_active s aid = some r ∧ hashCode code ∉ r.recovery_codes ∧
        p.decrypt r.encrypted_secret = some seed ∧ verify_code seed code now = true ∧
        r.last_used_code = some code) := by
  constructor
  · intro r seed hget hrec hd hv
    exact authenticate_invalid hget hrec hd hv
  · intro m hm
    exact replay_log_inv s aid code p now m hm

/-- Witness for C2: the invalid code ABC123 on the demo store is rejected
with no log event. -/
theorem replay_branch_requires_valid_code_witness :
    authenticate demoStore 1 "ABC123" demoProvider 0 = ⟨false, demoStore, []⟩ :=
  (replay_branch_requires_valid_code demoStore 1 "ABC123" demoProvider 0).1
    demoRecord demoSeed (by decide) (by decide) (by decide) (by decide)

/-- C6: for an account with no active record, authenticate returns false (a
total function, so no exception), performs no further checks, emits no log
event and leaves the store unchanged: no record is created. -/
theorem unenrolled_authenticate_false (s : Store) (aid : Nat) (code : String)
    (p : EncryptionProvider) (now : Nat) (h : get_active s aid = none) :
    authenticate s aid code p now = ⟨false, s, []⟩ :=
  authenticate_no_active code p now h

/-- Witness for C6: the unenrolled account 99 against an empty store. -/
theorem unenrolled_authenticate_false_witness :
    authenticate ([] : Store) 99 "000000" demoProvider 0 = ⟨false, [], []⟩ :=
  unenrolled_authenticate_false ([] : Store) 99 "000000" demoProvider 0 rfl

/-- C3 counterexample: an enrolled, non revoked account (record cexRecord of
account 1, whose last_used_code already holds the currently valid TOTP code)
for which authenticate with the TOTP code computed from the decrypted seed at
the current time returns false, not true: the claim as stated, with no replay
side condition, is false on the model. -/
theorem totp_success_claim_counterexample :
    get_active cexStore 1 = some cexRecord ∧
    cexRecord.revoked_at = none ∧
    demoProvider.decrypt cexRecord.encrypted_secret = some demoSeed ∧
    demoCode = compute_code demoSeed 0 ∧
    (authenticate cexStore 1 demoCode demoProvider 0).ok = false := by
  exact ⟨rfl, rfl, by decide, rfl, by decide⟩

/-- C3 amended: for an enrolled, non revoked account, a TOTP code computed
from the decrypted seed at the current time authenticates successfully and
updates last_used_at and last_used_code via record_successful_totp_use,
provided it differs from the stored last_used_code (the replay guard) and its
hash matches no unconsumed recovery code; and a code that is neither a
currently valid TOTP code nor a recovery code never authenticates. -/
theorem totp_authentication_amended (s : Store) (aid : Nat)
    (p : EncryptionProvider) (now : Nat) (r : AuthenticatorSecret) (seed : String)
    (hget : get_active s aid = some r)
    (hd : p.decrypt r.encrypted_secret = some seed) :
    (∀ code, code = compute_code seed now →
      hashCode code ∉ r.recovery_codes → r.last_used_code ≠ some code →
      (authenticate s aid code p now).ok = true ∧
      (authenticate s aid code p now).store = record_successful_totp_use s aid code now ∧
      get_active (authenticate s aid code p now).store aid =
        some { r with last_used_at := some now, last_used_code := some code }) ∧
    (∀ code, verify_code seed code now = false → hashCode code ∉ r.recovery_codes →
      (authenticate s aid code p now).ok = false) := by
  constructor
  · intro code hcode hrec hl
    have hv : verify_code seed code now = true := by
      simp [verify_code, compute_code, hcode]
    rw [authenticate_totp_success hget hrec hd hv hl]
    refine ⟨rfl, rfl, ?_⟩
    unfold record_successful_totp_use
    rw [get_active_updateActive s aid
      (fun x => { x with last_used_at := some now, last_used_code := some code })
      (fun x => rfl), hget]
    rfl
  · intro code hv hrec
    rw [authenticate_invalid hget hrec hd hv]

/-- Witness for the amended C3: the valid demo code succeeds on the demo
store; the invalid code ABC123 fails. -/
theorem totp_authentication_amended_witness :
    (authenticate demoStore 1 demoCode demoProvider 0).ok = true ∧
    (authenticate demoStore 1 "ABC123" demoProvider 0).ok = false :=
  ⟨((totp_authentication_amended demoStore 1 demoProvider 0 demoRecord demoSeed
      (by decide) (by decide)).1 demoCode rfl (by decide) (by decide)).1,
   (totp_authentication_amended demoStore 1 demoProvider 0 demoRecord demoSeed
      (by decide) (by decide)).2 "ABC123" (by decide) (by decide)⟩

/-- C4: a recovery code is consumable at most once: a candidate whose hash
matches a stored entry is accepted and the entry is removed from the active
record; a non matching candidate is rejected with no mutation; and when the
hash occurs at most once among the stored hashes, a second attempt with the
same code is rejected. -/
theorem recovery_code_at_most_once (s : Store) (aid : Nat) (candidate : String)
    (r : AuthenticatorSecret) (hget : get_active s aid = some r) :
    (hashCode candidate ∉ r.recovery_codes →
      consume_recovery_code s aid candidate = (false, s)) ∧
    (hashCode candidate ∈ r.recovery_codes →
      (consume_recovery_code s aid candidate).1 = true ∧
      get_active (consume_recovery_code s aid candidate).2 aid =
        some { r with recovery_codes := r.recovery_codes.erase (hashCode candidate) }) ∧
    (hashCode candidate ∈ r.recovery_codes →
      r.recovery_codes.count (hashCode candidate) ≤ 1 →
      (consume_recovery_code (consume_recovery_code s aid candidate).2 aid candidate).1 = false) := by
  have hga : ∀ h2 : hashCode candidate ∈ r.recovery_codes,
      get_active (consume_recovery_code s aid candidate).2 aid =
        some { r with recovery_codes := r.recovery_codes.erase (hashCode candidate) } := by
    intro h2
    rw [consume_of_mem hget h2]
    rw [show (true, updateActive s aid (fun x =>
      { x with recovery_codes := x.recovery_codes.erase (hashCode candidate) })).2 =
      updateActive s aid (fun x =>
        { x with recovery_codes := x.recovery_codes.erase (hashCode candidate) }) from rfl]
    rw [get_active_updateActive s aid
      (fun x => { x with recovery_codes := x.recovery_codes.erase (hashCode candidate) })
      (fun x => rfl), hget]
    rfl
  refine ⟨fun h => consume_of_not_mem hget h, fun h => ⟨?_, hga h⟩, fun h hcount => ?_⟩
  · rw [consume_of_mem hget h]
  · have herase : hashCode candidate ∉ r.recovery_codes.erase (hashCode candidate) := by
      rw [← List.count_eq_zero, List.count_erase_self]
      have hpos : 0 < r.recovery_codes.count (hashCode candidate) :=
        List.count_pos_iff.mpr h
      omega
    rw [consume_of_not_mem (hga h) herase]

/-- Witness for C4: the demo recovery code of account 2 is accepted once and
rejected on the second attempt. -/
theorem recovery_code_at_most_once_witness :
    (consume_recovery_code demoRecStore 2 demoRecoveryCode).1 = true ∧
    (consume_recovery_code (consume_recovery_code demoRecStore 2 demoRecoveryCode).2
      2 demoRecoveryCode).1 = false :=
  ⟨((recovery_code_at_most_once demoRecStore 2 demoRecoveryCode demoRecRecord
      (by decide)).2.1 (by decide)).1,
   (recovery_code_at_most_once demoRecStore 2 demoRecoveryCode demoRecRecord
      (by decide)).2.2 (by decide) (by decide)⟩

/-- C5: when every record of the account is revoked, authenticate returns
false unconditionally with no mutation and no log event, whatever the
presented code; and revocation is terminal: a revoked record survives
authenticate, revoke, consume_recovery_code and record_successful_totp_use
unchanged, so no operation clears revoked_at. -/
theorem revoked_never_authenticates (s : Store) (aid : Nat) (code : String)
    (p : EncryptionProvider) (now now2 : Nat) :
    ((∀ r ∈ s, r.account_id = aid → r.revoked_at.isSome = true) →
      authenticate s aid code p now = ⟨false, s, []⟩) ∧
    (∀ x ∈ s, x.revoked_at.isSome = true →
      x ∈ (authenticate s aid code p now).store ∧
      x ∈ revoke s aid now2 ∧
      x ∈ (consume_recovery_code s aid code).2 ∧
      x ∈ record_successful_totp_use s aid code now) := by
  constructor
  · intro h
    exact authenticate_no_active code p now (get_active_eq_none_of_all_revoked s aid h)
  · intro x hx hrev
    have hinact := isActiveFor_of_revoked aid x hrev
    have hcons : x ∈ (consume_recovery_code s aid code).2 := by
      cases hget : get_active s aid with
      | none => rw [consume_of_no_active code hget]; exact hx
      | some r =>
        by_cases hmem : hashCode code ∈ r.recovery_codes
        · rw [consume_of_mem hget hmem]
          exact mem_updateActive_of_inactive _ hx hinact
        · rw [consume_of_not_mem hget hmem]; exact hx
    refine ⟨mem_authenticate_store_of_revoked hx hrev, ?_, hcons, ?_⟩
    · unfold revoke
      exact mem_updateActive_of_inactive _ hx hinact
    · unfold record_successful_totp_use
      exact mem_updateActive_of_inactive _ hx hinact

/-- Witness for C5: the revoked account 3, presented with the TOTP code that
is valid for its own decrypted seed, is still rejected, and the revoked
record survives a further revoke unchanged. -/
theorem revoked_never_authenticates_witness :
    authenticate demoRevokedStore 3 demoCode demoProvider 0 = ⟨false, demoRevokedStore, []⟩ ∧
    demoRevokedRecord ∈ revoke demoRevokedStore 3 99 :=
  ⟨(revoked_never_authenticates demoRevokedStore 3 demoCode demoProvider 0 99).1 (by decide),
   ((revoked_never_authenticates demoRevokedStore 3 demoCode demoProvider 0 99).2
      demoRevokedRecord (by decide) (by decide)).2.1⟩

/-- C7: every generated secret is a string of exactly 32 characters drawn
from the base-32 alphabet, and generate_secret is injective in the 32 random
draws, so two calls whose draws from the secure random source differ return
unequal secrets (no collision). -/
theorem generate_secret_spec (d d2 : Fin 32 → Fin 32) :
    (generate_secret d).length = 32 ∧
    (∀ c ∈ (generate_secret d).data, c ∈ base32Alphabet) ∧
    (d ≠ d2 → generate_secret d ≠ generate_secret d2) := by
  refine ⟨?_, ?_, ?_⟩
  · show (List.ofFn _).length = 32
    rw [List.length_ofFn]
  · intro c hc
    have hc2 : c ∈ List.ofFn
        (fun i : Fin 32 => base32Alphabet.get (Fin.cast (by decide) (d i))) := hc
    rw [List.mem_ofFn] at hc2
    rcases hc2 with ⟨i, rfl⟩
    exact List.get_mem _ _ _
  · intro hne heq
    apply hne
    have heq2 : (List.ofFn fun i : Fin 32 => base32Alphabet.get (Fin.cast (by decide) (d i))) =
        (List.ofFn fun i : Fin 32 => base32Alphabet.get (Fin.cast (by decide) (d2 i))) :=
      congrArg String.data heq
    rw [List.ofFn_inj] at heq2
    funext i
    have hi := congrFun heq2 i
    have hnd : base32Alphabet.Nodup := by decide
    rw [hnd.get_inj_iff] at hi
    exact Fin.ext (congrArg Fin.val hi)

/-- Witness for C7: the all zero draws and the all one draws give distinct
secrets. -/
theorem generate_secret_spec_witness :
    (fun _ : Fin 32 => (0 : Fin 32)) ≠ (fun _ : Fin 32 => (1 : Fin 32)) ∧
    generate_secret (fun _ => 0) ≠ generate_secret (fun _ => 1) :=
  ⟨by decide,
   (generate_secret_spec (fun _ => 0) (fun _ => 1)).2.2 (by decide)⟩

/-- C8: revoke sets revoked_at on the active record when one exists (after
which no active record remains), is a no-op rather than an error on an
account with no active record, and is idempotent: revoking twice, even with
different timestamps, leaves the same store as revoking once. -/
theorem revoke_idempotent (s : Store) (aid : Nat) (now now2 : Nat) :
    (∀ r, get_active s aid = some r →
      { r with revoked_at := some now } ∈ revoke s aid now ∧
      get_active (revoke s aid now) aid = none) ∧
    (get_active s aid = none → revoke s aid now = s) ∧
    revoke (revoke s aid now) aid now2 = revoke s aid now := by
  have hkill : ∀ x : AuthenticatorSecret,
      isActiveFor aid { x with revoked_at := some now } = false := by
    intro x
    simp [isActiveFor]
  refine ⟨?_, ?_, ?_⟩
  · intro r hget
    have hget2 : List.find? (isActiveFor aid) s = some r := hget
    have hact : isActiveFor aid r = true := List.find?_some hget2
    have hmem : r ∈ s := List.mem_of_find?_eq_some hget2
    constructor
    · unfold revoke
      exact mem_updateActive_of_active _ hmem hact
    · unfold revoke
      exact get_active_updateActive_kill s aid _ hkill
  · intro h
    apply updateActive_eq_self
    intro x hx
    have := List.find?_eq_none.mp h x hx
    simpa using this
  · unfold revoke
    apply updateActive_eq_self
    exact inactive_of_mem_updateActive_kill _ hkill

/-- Witness for C8: revoking the demo store marks the demo record revoked and
leaves no active record; revoking an empty store is a no-op. -/
theorem revoke_idempotent_witness :
    ({ demoRecord with revoked_at := some 5 } ∈ revoke demoStore 1 5 ∧
      get_active (revoke demoStore 1 5) 1 = none) ∧
    revoke ([] : Store) 1 5 = [] :=
  ⟨(revoke_idempotent demoStore 1 5 0).1 demoRecord (by decide),
   (revoke_idempotent ([] : Store) 1 5 0).2.1 (by decide)⟩

/-- C9: a successful recovery code authentication returns true immediately,
emits no log event and leaves last_used_at and last_used_code of every stored
record unchanged; and every failing authenticate call leaves the store
entirely unchanged, so last_used_at is updated only by a successful TOTP
authentication, never by recovery code use. -/
theorem recovery_success_frame (s : Store) (aid : Nat) (code : String)
    (p : EncryptionProvider) (now : Nat) (r : AuthenticatorSecret)
    (hget : get_active s aid = some r)
    (hmem : hashCode code ∈ r.recovery_codes) :
    (authenticate s aid code p now).ok = true ∧
    (authenticate s aid code p now).logs = [] ∧
    (authenticate s aid code p now).store.map (fun x => (x.last_used_at, x.last_used_code)) =
      s.map (fun x => (x.last_used_at, x.last_used_code)) ∧
    (∀ s2 : Store, (authenticate s2 aid code p now).ok = false →
      (authenticate s2 aid code p now).store = s2) := by
  rw [authenticate_recovery p now hget hmem]
  refine ⟨rfl, rfl, ?_, fun s2 h => authenticate_fail_frame s2 aid code p now h⟩
  exact map_updateActive_eq _ s aid _ (fun x => rfl)

/-- Witness for C9: consuming the demo recovery code of account 2 succeeds
and preserves the last_used fields of the stored record. -/
theorem recovery_success_frame_witness :
    (authenticate demoRecStore 2 demoRecoveryCode demoProvider 0).ok = true ∧
    (authenticate demoRecStore 2 demoRecoveryCode demoProvider 0).logs = [] ∧
    (authenticate demoRecStore 2 demoRecoveryCode demoProvider 0).store.map
        (fun x => (x.last_used_at, x.last_used_code)) =
      demoRecStore.map (fun x => (x.last_used_at, x.last_used_code)) ∧
    (∀ s2 : Store, (authenticate s2 2 demoRecoveryCode demoProvider 0).ok = false →
      (authenticate s2 2 demoRecoveryCode demoProvider 0).store = s2) :=
  recovery_success_frame demoRecStore 2 demoRecoveryCode demoProvider 0 demoRecRecord
    (by decide) (by decide)

/-- C10: a fresh enrollment returns a record whose encrypted_secret holds the
ciphertext of the fresh seed, whose created_at is the enrollment timestamp,
and whose last_used_at, last_used_code and revoked_at are all null, together
with the plaintext recovery codes as a separate value, and the record is
added to the store. -/
theorem create_new_fresh_record (s : Store) (aid : Nat) (p : EncryptionProvider)
    (seed : String) (codes : List String) (now : Nat)
    (h : get_active s aid = none) :
    create_new s aid p seed codes now =
      Except.ok
        ({ account_id := aid,
           encrypted_secret := p.encrypt seed,
           recovery_codes := codes.map hashCode,
           created_at := now,
           last_used_at := none,
           last_used_code := none,
           revoked_at := none },
         codes,
         { account_id := aid,
           encrypted_secret := p.encrypt seed,
           recovery_codes := codes.map hashCode,
           created_at := now,
           last_used_at := none,
           last_used_code := none,
           revoked_at := none } :: s) := by
  simp only [create_new, h]

/-- Witness for C10: enrolling account 1 in an empty store yields the fresh
record with null last_used_at, last_used_code and revoked_at, alongside the
plaintext recovery code. -/
theorem create_new_fresh_record_witness :
    create_new ([] : Store) 1 demoProvider demoSeed [demoRecoveryCode] 0 =
      Except.ok (demoFreshRecord, [demoRecoveryCode], [demoFreshRecord]) ∧
    demoFreshRecord.last_used_at = none ∧
    demoFreshRecord.last_used_code = none ∧
    demoFreshRecord.revoked_at = none :=
  ⟨create_new_fresh_record ([] : Store) 1 demoProvider demoSeed [demoRecoveryCode] 0 rfl,
   rfl, rfl, rfl⟩

end Mfa
